import Mathlib

set_option maxRecDepth 100000

/-!
Shallow embedding of the 6502 emulator core (`src/cpu.rs`, `src/consts.rs`,
`src/memory.rs`) of luciano093/6502-CPU-Emulator.

Conventions of the embedding:
* 8-bit registers and memory bytes are `Nat` values kept below 256 by explicit
  `% 256`; 16-bit quantities below 65536 by `% 65536`.
* Rust integer overflow is modelled with two's-complement wrapping (the
  semantics of the release profile; the sources carry no overflow-check
  override).  Slice indexing is bounds-checked in every Rust profile, so the
  one place that can index out of bounds (`read_word_memory` at `0xFFFF + 1`)
  is modelled as a fatal error, as are the two `panic!`/`unwrap` sites of the
  executor (unknown opcode, `Status::from_bits(..).unwrap()` in PLP).
* Memory is a total function `Nat → Nat`; the Rust array holds 65536 cells, so
  reads through the bounds-checked path fail at index 65536 and beyond.
* Cycle bookkeeping mirrors the `u32` counter: every `cycles -= 1` is a
  wrapping decrement mod 2^32.
-/

namespace Emu6502

/-- The 64 KiB byte store of `memory.rs`, as a total function on addresses. -/
abbrev Mem := Nat → Nat

/-- Point update of the store, `memory[i] = v`. -/
def memWrite (mem : Mem) (i v : Nat) : Mem := fun j => if j = i then v else mem j

/-- Fatal outcomes of the executor: the catch-all arm panic, the bounds-check
panic of slice indexing, and the `unwrap` panic in the PLP arm. -/
inductive EmuErr where
  | unknownOpcodePanic
  | outOfBounds
  | unwrapPanic
deriving DecidableEq, Repr

/-- Wrap to 8 bits (u8 two's-complement wrapping arithmetic). -/
def m8 (n : Nat) : Nat := n % 256

/-- Wrap to 16 bits (u16 two's-complement wrapping arithmetic). -/
def m16 (n : Nat) : Nat := n % 65536

/-- The wrapping `cycles -= 1` on the `u32` cycle counter. -/
def decCyc (c : Nat) : Nat := (c + 4294967295) % 4294967296

/-- Test of a `Status` flag, mirroring the accessors written as
`bits & mask == mask` in `cpu.rs`. -/
def flagTest (p mask : Nat) : Bool := p &&& mask == mask

/-- The bitflags `set` operation used by `set_carry`, `set_zero`, ...:
insert the mask when the state is true, remove it when false. -/
def flagSet (p mask : Nat) (b : Bool) : Nat :=
  if b then p ||| mask else p &&& (255 ^^^ mask)

def carryFlag (p : Nat) : Bool := flagTest p 1
def zeroFlag (p : Nat) : Bool := flagTest p 2
def interruptFlag (p : Nat) : Bool := flagTest p 4
def decimalFlag (p : Nat) : Bool := flagTest p 8
def breakFlag (p : Nat) : Bool := flagTest p 16
def overflowFlag (p : Nat) : Bool := flagTest p 64
def negativeFlag (p : Nat) : Bool := flagTest p 128

/-- Rust `Status::from_bits`: fails exactly when the one undefined bit
(bit 5, value 32) is set in the byte. -/
def statusFromBits (v : Nat) : Option Nat :=
  if v &&& 32 = 0 then some v else none

/-- Rust `impl From for Status` over `u8`: accept the byte, masking
bit 5 away when `from_bits` rejects it. -/
def statusFromU8 (v : Nat) : Nat :=
  match statusFromBits v with
  | some s => s
  | none => v &&& 223

/-- The register file of `cpu.rs`. -/
structure CPU where
  pc : Nat
  sp : Nat
  a : Nat
  x : Nat
  y : Nat
  p : Nat
deriving DecidableEq, Repr

/-- Rust `CPU::reset`: seed PC from the little-endian reset vector at
`$FFFC/$FFFD` and set SP to `0xFF`. -/
def reset (cpu : CPU) (mem : Mem) : CPU :=
  { cpu with pc := mem 0xFFFC ||| (mem 0xFFFD <<< 8), sp := 0xFF }

/-- Rust `fetch_byte`: read the byte at PC, advance PC with u16 wrap,
debit one cycle.  Returns (byte, cpu, cycles). -/
def fetchByte (cpu : CPU) (cycles : Nat) (mem : Mem) : Nat × CPU × Nat :=
  (mem cpu.pc, { cpu with pc := m16 (cpu.pc + 1) }, decCyc cycles)

/-- Rust `fetch_word`: two fetches, little-endian assembly. -/
def fetchWord (cpu : CPU) (cycles : Nat) (mem : Mem) : Nat × CPU × Nat :=
  let low := mem cpu.pc
  let cpu1 : CPU := { cpu with pc := m16 (cpu.pc + 1) }
  let high := mem cpu1.pc
  ((high <<< 8) ||| low, { cpu1 with pc := m16 (cpu1.pc + 1) }, decCyc (decCyc cycles))

/-- Rust `read_memory`: bounds-checked slice read of one byte, one cycle.
Every caller passes an index derived from a u16 except `read_word_memory`,
which can pass 65536. -/
def readMemory (cycles : Nat) (mem : Mem) (ea : Nat) : Except EmuErr (Nat × Nat) :=
  if ea < 65536 then .ok (mem ea, decCyc cycles) else .error .outOfBounds

/-- Rust `read_word_memory`: low byte at `ea`, high byte at `ea + 1` with no
mod-65536 reduction (the source carries a todo about the high byte running
past the end of memory). -/
def readWordMemory (cycles : Nat) (mem : Mem) (ea : Nat) : Except EmuErr (Nat × Nat) := do
  let (low, c1) ← readMemory cycles mem ea
  let (high, c2) ← readMemory c1 mem (ea + 1)
  .ok (low ||| (high <<< 8), c2)

/-- Rust `zero_page_addressing`. -/
def zeroPageAddressing (cpu : CPU) (cycles : Nat) (mem : Mem) : Nat × CPU × Nat :=
  fetchByte cpu cycles mem

/-- Rust `zero_page_x_addressing`: `(x + base) % 256`, one extra cycle. -/
def zeroPageXAddressing (cpu : CPU) (cycles : Nat) (mem : Mem) : Nat × CPU × Nat :=
  let (addr, cpu, c) := fetchByte cpu cycles mem
  ((cpu.x + addr) % 256, cpu, decCyc c)

/-- Rust `zero_page_y_addressing`. -/
def zeroPageYAddressing (cpu : CPU) (cycles : Nat) (mem : Mem) : Nat × CPU × Nat :=
  let (addr, cpu, c) := fetchByte cpu cycles mem
  ((cpu.y + addr) % 256, cpu, decCyc c)

/-- Rust `absolute_addressing`. -/
def absoluteAddressing (cpu : CPU) (cycles : Nat) (mem : Mem) : Nat × CPU × Nat :=
  fetchWord cpu cycles mem

/-- Rust `absolute_x_addressing`: u16 add of X, one extra cycle on page cross. -/
def absoluteXAddressing (cpu : CPU) (cycles : Nat) (mem : Mem) : Nat × CPU × Nat :=
  let (addr, cpu, c) := fetchWord cpu cycles mem
  let ea := m16 (cpu.x + addr)
  let c := if addr &&& 0xFF00 ≠ ea &&& 0xFF00 then decCyc c else c
  (ea, cpu, c)

/-- Rust `absolute_y_addressing`. -/
def absoluteYAddressing (cpu : CPU) (cycles : Nat) (mem : Mem) : Nat × CPU × Nat :=
  let (addr, cpu, c) := fetchWord cpu cycles mem
  let ea := m16 (cpu.y + addr)
  let c := if addr &&& 0xFF00 ≠ ea &&& 0xFF00 then decCyc c else c
  (ea, cpu, c)

/-- Rust `indirect_addressing` (JMP indirect): fetch a pointer word, then read
the target word at that pointer through `read_word_memory`. -/
def indirectAddressing (cpu : CPU) (cycles : Nat) (mem : Mem) :
    Except EmuErr (Nat × CPU × Nat) := do
  let (ptr, cpu, c) := fetchWord cpu cycles mem
  let (ea, c) ← readWordMemory c mem ptr
  .ok (ea, cpu, c)

/-- Rust `indirect_x_addressing`: zero-page pointer `(base + X) mod 256`. -/
def indirectXAddressing (cpu : CPU) (cycles : Nat) (mem : Mem) :
    Except EmuErr (Nat × CPU × Nat) := do
  let (addr, cpu, c) := fetchByte cpu cycles mem
  let ptr := m8 (addr + cpu.x)
  let c := decCyc c
  let (ea, c) ← readWordMemory c mem ptr
  .ok (ea, cpu, c)

/-- Rust `indirect_y_addressing`: read a word at the zero-page pointer, add Y
(u16 wrap), one extra cycle on page cross. -/
def indirectYAddressing (cpu : CPU) (cycles : Nat) (mem : Mem) :
    Except EmuErr (Nat × CPU × Nat) := do
  let (ptr, cpu, c) := fetchByte cpu cycles mem
  let (addr, c) ← readWordMemory c mem ptr
  let ea := m16 (addr + cpu.y)
  let c := if addr &&& 0xFF00 ≠ ea &&& 0xFF00 then decCyc c else c
  .ok (ea, cpu, c)

/-- Rust `set_lda_flags` (also the inline Z/N updates of the transfer,
logic and PLA arms, which are textually identical). -/
def setLdaFlags (cpu : CPU) : CPU :=
  { cpu with p := flagSet (flagSet cpu.p 2 (cpu.a == 0)) 128 (cpu.a &&& 128 == 128) }

/-- Rust `set_ldx_flags`. -/
def setLdxFlags (cpu : CPU) : CPU :=
  { cpu with p := flagSet (flagSet cpu.p 2 (cpu.x == 0)) 128 (cpu.x &&& 128 == 128) }

/-- Rust `set_ldy_flags`. -/
def setLdyFlags (cpu : CPU) : CPU :=
  { cpu with p := flagSet (flagSet cpu.p 2 (cpu.y == 0)) 128 (cpu.y &&& 128 == 128) }

/-- Rust `set_adc_sbc_flags`, kept bit for bit: carry from the u8 overflow
flag of the addition; overflow when the operand's bit 7 differs from the
result's bit 7; zero from the result; and the negative update compares
`a & 0b10000000` against the literal `0b1000000` (64) exactly as the source
does, so it can never be true. -/
def setAdcSbcFlags (cpu : CPU) (overflow : Bool) (initialValue : Nat) : CPU :=
  let p := flagSet cpu.p 1 overflow
  let p := flagSet p 64 (!((initialValue &&& 128) == (cpu.a &&& 128)))
  let p := flagSet p 2 (cpu.a == 0)
  let p := flagSet p 128 ((cpu.a &&& 128) == 64)
  { cpu with p := p }

/-- The accumulator update shared verbatim by every ADC/SBC arm:
`overflowing_add` of the operand, a conditional `overflowing_add` of the
carry-in, then `set_adc_sbc_flags`. -/
def adcCore (cpu : CPU) (byte : Nat) : CPU :=
  let a0 := m8 (cpu.a + byte)
  let ov0 := decide (256 ≤ cpu.a + byte)
  let res := if carryFlag cpu.p then (m8 (a0 + 1), ov0 || decide (256 ≤ a0 + 1))
             else (a0, ov0)
  setAdcSbcFlags { cpu with a := res.1 } res.2 byte

/-- The flag block shared by every CMP/CPX arm: carry is assigned, but zero
and negative are only ever set (inside `if`s), never cleared. -/
def compareIfFlags (p reg byte : Nat) : Nat :=
  let p := flagSet p 1 (decide (byte ≤ reg))
  let p := if reg = byte then flagSet p 2 true else p
  if byte ≤ reg ∧ (reg - byte) &&& 128 = 128 then flagSet p 128 true else p

/-- The flag block of the CPY arms, which unlike CMP/CPX assigns all three
flags. -/
def compareAssignFlags (p reg byte : Nat) : Nat :=
  let p := flagSet p 1 (decide (byte ≤ reg))
  let p := flagSet p 2 (reg == byte)
  flagSet p 128 (decide (byte ≤ reg) && ((reg - byte) &&& 128 == 128))

/-- The flag block shared by the shift/rotate arms: when the carry condition
holds the carry is set, otherwise the negative flag is cleared (the source's
asymmetric `else`); zero is assigned; negative is set (only) when bit 7 of
the new byte is on. -/
def shiftFlags (p : Nat) (carryCond : Bool) (newByte : Nat) : Nat :=
  let p := if carryCond then flagSet p 1 true else flagSet p 128 false
  let p := flagSet p 2 (newByte == 0)
  if newByte &&& 128 == 128 then flagSet p 128 true else p

/-- Branch-target arithmetic of the branch arms: offsets at or above 128 are
subtracted as `256 - offset` with u16 wrapping, others added with u16 wrap. -/
def branchTarget (pc offset : Nat) : Nat :=
  if 128 ≤ offset then (pc + 65536 - (256 - offset)) % 65536
  else m16 (pc + offset)

/-- The body shared by BCC/BCS/BEQ/BMI/BNE/BPL/BVC: fetch the offset, and when
the condition holds debit one cycle, compute the target and debit two more
cycles on page cross. -/
def branchOp (cpu : CPU) (cycles : Nat) (mem : Mem) (cond : Bool) : CPU × Nat :=
  let (offset, cpu, c) := fetchByte cpu cycles mem
  if cond then
    let c := decCyc c
    let newLoc := branchTarget cpu.pc offset
    let c := if cpu.pc &&& 0xFF00 ≠ newLoc &&& 0xFF00 then decCyc (decCyc c) else c
    ({ cpu with pc := newLoc }, c)
  else (cpu, c)

/-- The BVS arm differs from its seven siblings: it debits a cycle before
testing the overflow flag, and debits no further taken-branch cycle. -/
def bvsOp (cpu : CPU) (cycles : Nat) (mem : Mem) : CPU × Nat :=
  let (offset, cpu, c) := fetchByte cpu cycles mem
  let c := decCyc c
  if overflowFlag cpu.p then
    let newLoc := branchTarget cpu.pc offset
    let c := if cpu.pc &&& 0xFF00 ≠ newLoc &&& 0xFF00 then decCyc (decCyc c) else c
    ({ cpu with pc := newLoc }, c)
  else (cpu, c)

/-- One dispatch of `CPU::execute`'s match, after the opcode fetch.  Arms are
ordered as in `cpu.rs`; each is tagged with the constant name of `consts.rs`.
The branch, flag-op, BRK, NOP and RTI byte values are absent from the provided
`consts.rs` (it ends at `RTS`); those literals are modelled from the spec,
which fixes opcode bytes to the canonical NMOS 6502 table (`BCC`=0x90,
`BCS`=0xB0, `BEQ`=0xF0, `BMI`=0x30, `BNE`=0xD0, `BPL`=0x10, `BVC`=0x50,
`BVS`=0x70, `CLC`=0x18, `CLD`=0xD8, `CLI`=0x58, `CLV`=0xB8, `SEC`=0x38,
`SED`=0xF8, `SEI`=0x78, `BRK`=0x00, `NOP`=0xEA, `RTI`=0x40). -/
def execInst (inst : Nat) (cpu : CPU) (mem : Mem) (cycles : Nat) :
    Except EmuErr (CPU × Mem × Nat) :=
  match inst with
  | 0xA9 => -- LDA_IM
    let (b, cpu, c) := fetchByte cpu cycles mem
    .ok (setLdaFlags { cpu with a := b }, mem, c)
  | 0xA5 => do -- LDA_ZP
    let (ea, cpu, c) := zeroPageAddressing cpu cycles mem
    let (b, c) ← readMemory c mem ea
    .ok (setLdaFlags { cpu with a := b }, mem, c)
  | 0xB5 => do -- LDA_ZPX
    let (ea, cpu, c) := zeroPageXAddressing cpu cycles mem
    let (b, c) ← readMemory c mem ea
    .ok (setLdaFlags { cpu with a := b }, mem, c)
  | 0xAD => do -- LDA_ABS
    let (ea, cpu, c) := absoluteAddressing cpu cycles mem
    let (b, c) ← readMemory c mem ea
    .ok (setLdaFlags { cpu with a := b }, mem, c)
  | 0xBD => do -- LDA_ABSX
    let (ea, cpu, c) := absoluteXAddressing cpu cycles mem
    let (b, c) ← readMemory c mem ea
    .ok (setLdaFlags { cpu with a := b }, mem, c)
  | 0xB9 => do -- LDA_ABSY
    let (ea, cpu, c) := absoluteYAddressing cpu cycles mem
    let (b, c) ← readMemory c mem ea
    .ok (setLdaFlags { cpu with a := b }, mem, c)
  | 0xA1 => do -- LDA_INDX
    let (ea, cpu, c) ← indirectXAddressing cpu cycles mem
    let (b, c) ← readMemory c mem ea
    .ok (setLdaFlags { cpu with a := b }, mem, c)
  | 0xB1 => do -- LDA_INDY
    let (ea, cpu, c) ← indirectYAddressing cpu cycles mem
    let (b, c) ← readMemory c mem ea
    .ok (setLdaFlags { cpu with a := b }, mem, c)
  | 0xA2 => -- LDX_IM
    let (b, cpu, c) := fetchByte cpu cycles mem
    .ok (setLdxFlags { cpu with x := b }, mem, c)
  | 0xA6 => do -- LDX_ZP
    let (ea, cpu, c) := zeroPageAddressing cpu cycles mem
    let (b, c) ← readMemory c mem ea
    .ok (setLdxFlags { cpu with x := b }, mem, c)
  | 0xB6 => do -- LDX_ZPY
    let (ea, cpu, c) := zeroPageYAddressing cpu cycles mem
    let (b, c) ← readMemory c mem ea
    .ok (setLdxFlags { cpu with x := b }, mem, c)
  | 0xAE => do -- LDX_ABS
    let (ea, cpu, c) := absoluteAddressing cpu cycles mem
    let (b, c) ← readMemory c mem ea
    .ok (setLdxFlags { cpu with x := b }, mem, c)
  | 0xBE => do -- LDX_ABSY
    let (ea, cpu, c) := absoluteYAddressing cpu cycles mem
    let (b, c) ← readMemory c mem ea
    .ok (setLdxFlags { cpu with x := b }, mem, c)
  | 0xA0 => -- LDY_IM
    let (b, cpu, c) := fetchByte cpu cycles mem
    .ok (setLdyFlags { cpu with y := b }, mem, c)
  | 0xA4 => do -- LDY_ZP
    let (ea, cpu, c) := zeroPageAddressing cpu cycles mem
    let (b, c) ← readMemory c mem ea
    .ok (setLdyFlags { cpu with y := b }, mem, c)
  | 0xB4 => do -- LDY_ZPX
    let (ea, cpu, c) := zeroPageXAddressing cpu cycles mem
    let (b, c) ← readMemory c mem ea
    .ok (setLdyFlags { cpu with y := b }, mem, c)
  | 0xAC => do -- LDY_ABS
    let (ea, cpu, c) := absoluteAddressing cpu cycles mem
    let (b, c) ← readMemory c mem ea
    .ok (setLdyFlags { cpu with y := b }, mem, c)
  | 0xBC => do -- LDY_ABSX
    let (ea, cpu, c) := absoluteXAddressing cpu cycles mem
    let (b, c) ← readMemory c mem ea
    .ok (setLdyFlags { cpu with y := b }, mem, c)
  | 0x85 => -- STA_ZP
    let (ea, cpu, c) := zeroPageAddressing cpu cycles mem
    .ok (cpu, memWrite mem ea cpu.a, c)
  | 0x95 => -- STA_ZPX
    let (ea, cpu, c) := zeroPageXAddressing cpu cycles mem
    .ok (cpu, memWrite mem ea cpu.a, c)
  | 0x8D => -- STA_ABS
    let (ea, cpu, c) := absoluteAddressing cpu cycles mem
    .ok (cpu, memWrite mem ea cpu.a, c)
  | 0x9D => -- STA_ABSX
    let (ea, cpu, c) := absoluteXAddressing cpu cycles mem
    .ok (cpu, memWrite mem ea cpu.a, c)
  | 0x99 => -- STA_ABSY
    let (ea, cpu, c) := absoluteYAddressing cpu cycles mem
    .ok (cpu, memWrite mem ea cpu.a, c)
  | 0x81 => do -- STA_INDX
    let (ea, cpu, c) ← indirectXAddressing cpu cycles mem
    .ok (cpu, memWrite mem ea cpu.a, c)
  | 0x91 => do -- STA_INDY
    let (ea, cpu, c) ← indirectYAddressing cpu cycles mem
    .ok (cpu, memWrite mem ea cpu.a, c)
  | 0x86 => -- STX_ZP
    let (ea, cpu, c) := zeroPageAddressing cpu cycles mem
    .ok (cpu, memWrite mem ea cpu.x, c)
  | 0x96 => -- STX_ZPY
    let (ea, cpu, c) := zeroPageYAddressing cpu cycles mem
    .ok (cpu, memWrite mem ea cpu.x, c)
  | 0x8E => -- STX_ABS
    let (ea, cpu, c) := absoluteAddressing cpu cycles mem
    .ok (cpu, memWrite mem ea cpu.x, c)
  | 0x84 => -- STY_ZP (the source stores self.x here, not self.y)
    let (ea, cpu, c) := zeroPageAddressing cpu cycles mem
    .ok (cpu, memWrite mem ea cpu.x, c)
  | 0x94 => -- STY_ZPX (stores self.x, as in the source)
    let (ea, cpu, c) := zeroPageXAddressing cpu cycles mem
    .ok (cpu, memWrite mem ea cpu.x, c)
  | 0x8C => -- STY_ABS (stores self.x, as in the source)
    let (ea, cpu, c) := absoluteAddressing cpu cycles mem
    .ok (cpu, memWrite mem ea cpu.x, c)
  | 0xAA => -- TAX
    .ok (setLdxFlags { cpu with x := cpu.a }, mem, decCyc cycles)
  | 0xA8 => -- TAY
    .ok (setLdyFlags { cpu with y := cpu.a }, mem, decCyc cycles)
  | 0x8A => -- TXA
    .ok (setLdaFlags { cpu with a := cpu.x }, mem, decCyc cycles)
  | 0x98 => -- TYA
    .ok (setLdaFlags { cpu with a := cpu.y }, mem, decCyc cycles)
  | 0xBA => -- TSX
    .ok (setLdxFlags { cpu with x := cpu.sp }, mem, decCyc cycles)
  | 0x9A => -- TXS
    .ok ({ cpu with sp := cpu.x }, mem, decCyc cycles)
  | 0x48 => -- PHA: write A at address SP itself (the source omits the $0100 base)
    let c := decCyc cycles
    let mem := memWrite mem cpu.sp cpu.a
    let cpu := { cpu with sp := m8 (cpu.sp + 255) }
    .ok (cpu, mem, decCyc c)
  | 0x08 => -- PHP: write P at address SP itself
    let c := decCyc cycles
    let mem := memWrite mem cpu.sp cpu.p
    let cpu := { cpu with sp := m8 (cpu.sp + 255) }
    .ok (cpu, mem, decCyc c)
  | 0x68 => -- PLA: increment SP, read at address SP itself
    let c := decCyc (decCyc cycles)
    let cpu := { cpu with sp := m8 (cpu.sp + 1) }
    let cpu := { cpu with a := mem cpu.sp }
    .ok (setLdaFlags cpu, mem, decCyc c)
  | 0x28 => -- PLP: Status::from_bits(..).unwrap() panics when bit 5 is set
    let c := decCyc (decCyc cycles)
    let cpu := { cpu with sp := m8 (cpu.sp + 1) }
    match statusFromBits (mem cpu.sp) with
    | some s => .ok ({ cpu with p := s }, mem, decCyc c)
    | none => .error .unwrapPanic
  | 0x29 => -- AND_IM
    let (b, cpu, c) := fetchByte cpu cycles mem
    .ok (setLdaFlags { cpu with a := cpu.a &&& b }, mem, c)
  | 0x25 => -- AND_ZP
    let (ea, cpu, c) := zeroPageAddressing cpu cycles mem
    .ok (setLdaFlags { cpu with a := cpu.a &&& mem ea }, mem, decCyc c)
  | 0x35 => -- AND_ZPX
    let (ea, cpu, c) := zeroPageXAddressing cpu cycles mem
    .ok (setLdaFlags { cpu with a := cpu.a &&& mem ea }, mem, decCyc c)
  | 0x2D => -- AND_ABS
    let (ea, cpu, c) := absoluteAddressing cpu cycles mem
    .ok (setLdaFlags { cpu with a := cpu.a &&& mem ea }, mem, decCyc c)
  | 0x3D => -- AND_ABSX
    let (ea, cpu, c) := absoluteXAddressing cpu cycles mem
    .ok (setLdaFlags { cpu with a := cpu.a &&& mem ea }, mem, decCyc c)
  | 0x39 => -- AND_ABSY
    let (ea, cpu, c) := absoluteYAddressing cpu cycles mem
    .ok (setLdaFlags { cpu with a := cpu.a &&& mem ea }, mem, decCyc c)
  | 0x21 => do -- AND_INDX
    let (ea, cpu, c) ← indirectXAddressing cpu cycles mem
    .ok (setLdaFlags { cpu with a := cpu.a &&& mem ea }, mem, decCyc c)
  | 0x31 => do -- AND_INDY
    let (ea, cpu, c) ← indirectYAddressing cpu cycles mem
    .ok (setLdaFlags { cpu with a := cpu.a &&& mem ea }, mem, decCyc c)
  | 0x49 => -- EOR_IM
    let (b, cpu, c) := fetchByte cpu cycles mem
    .ok (setLdaFlags { cpu with a := cpu.a ^^^ b }, mem, c)
  | 0x45 => -- EOR_ZP
    let (ea, cpu, c) := zeroPageAddressing cpu cycles mem
    .ok (setLdaFlags { cpu with a := cpu.a ^^^ mem ea }, mem, decCyc c)
  | 0x55 => -- EOR_ZPX
    let (ea, cpu, c) := zeroPageXAddressing cpu cycles mem
    .ok (setLdaFlags { cpu with a := cpu.a ^^^ mem ea }, mem, decCyc c)
  | 0x4D => -- EOR_ABS
    let (ea, cpu, c) := absoluteAddressing cpu cycles mem
    .ok (setLdaFlags { cpu with a := cpu.a ^^^ mem ea }, mem, decCyc c)
  | 0x5D => -- EOR_ABSX
    let (ea, cpu, c) := absoluteXAddressing cpu cycles mem
    .ok (setLdaFlags { cpu with a := cpu.a ^^^ mem ea }, mem, decCyc c)
  | 0x59 => -- EOR_ABSY
    let (ea, cpu, c) := absoluteYAddressing cpu cycles mem
    .ok (setLdaFlags { cpu with a := cpu.a ^^^ mem ea }, mem, decCyc c)
  | 0x41 => do -- EOR_INDX
    let (ea, cpu, c) ← indirectXAddressing cpu cycles mem
    .ok (setLdaFlags { cpu with a := cpu.a ^^^ mem ea }, mem, decCyc c)
  | 0x51 => do -- EOR_INDY
    let (ea, cpu, c) ← indirectYAddressing cpu cycles mem
    .ok (setLdaFlags { cpu with a := cpu.a ^^^ mem ea }, mem, decCyc c)
  | 0x09 => -- ORA_IM
    let (b, cpu, c) := fetchByte cpu cycles mem
    .ok (setLdaFlags { cpu with a := cpu.a ||| b }, mem, c)
  | 0x05 => -- ORA_ZP
    let (ea, cpu, c) := zeroPageAddressing cpu cycles mem
    .ok (setLdaFlags { cpu with a := cpu.a ||| mem ea }, mem, decCyc c)
  | 0x15 => -- ORA_ZPX
    let (ea, cpu, c) := zeroPageXAddressing cpu cycles mem
    .ok (setLdaFlags { cpu with a := cpu.a ||| mem ea }, mem, decCyc c)
  | 0x0D => -- ORA_ABS
    let (ea, cpu, c) := absoluteAddressing cpu cycles mem
    .ok (setLdaFlags { cpu with a := cpu.a ||| mem ea }, mem, decCyc c)
  | 0x1D => -- ORA_ABSX
    let (ea, cpu, c) := absoluteXAddressing cpu cycles mem
    .ok (setLdaFlags { cpu with a := cpu.a ||| mem ea }, mem, decCyc c)
  | 0x19 => -- ORA_ABSY
    let (ea, cpu, c) := absoluteYAddressing cpu cycles mem
    .ok (setLdaFlags { cpu with a := cpu.a ||| mem ea }, mem, decCyc c)
  | 0x01 => do -- ORA_INDX
    let (ea, cpu, c) ← indirectXAddressing cpu cycles mem
    .ok (setLdaFlags { cpu with a := cpu.a ||| mem ea }, mem, decCyc c)
  | 0x11 => do -- ORA_INDY
    let (ea, cpu, c) ← indirectYAddressing cpu cycles mem
    .ok (setLdaFlags { cpu with a := cpu.a ||| mem ea }, mem, decCyc c)
  | 0x24 => -- BIT_ZP: P is ANDed with bits 6-7 of the operand (as in the source)
    let (ea, cpu, c) := zeroPageAddressing cpu cycles mem
    let bitTest := cpu.a &&& mem ea
    let c := decCyc c
    let p := flagSet cpu.p 2 (bitTest == 0)
    .ok ({ cpu with p := p &&& (bitTest &&& 192) }, mem, c)
  | 0x2C => -- BIT_ABS (no extra cycle in the source)
    let (ea, cpu, c) := absoluteAddressing cpu cycles mem
    let bitTest := cpu.a &&& mem ea
    let p := flagSet cpu.p 2 (bitTest == 0)
    .ok ({ cpu with p := p &&& (bitTest &&& 192) }, mem, c)
  | 0x69 => -- ADC_IM
    let (b, cpu, c) := fetchByte cpu cycles mem
    .ok (adcCore cpu b, mem, c)
  | 0x65 => -- ADC_ZP
    let (ea, cpu, c) := zeroPageAddressing cpu cycles mem
    .ok (adcCore cpu (mem ea), mem, decCyc c)
  | 0x75 => -- ADC_ZPX
    let (ea, cpu, c) := zeroPageXAddressing cpu cycles mem
    .ok (adcCore cpu (mem ea), mem, decCyc c)
  | 0x6D => -- ADC_ABS
    let (ea, cpu, c) := absoluteAddressing cpu cycles mem
    .ok (adcCore cpu (mem ea), mem, decCyc c)
  | 0x7D => -- ADC_ABSX
    let (ea, cpu, c) := absoluteXAddressing cpu cycles mem
    .ok (adcCore cpu (mem ea), mem, decCyc c)
  | 0x79 => -- ADC_ABSY
    let (ea, cpu, c) := absoluteYAddressing cpu cycles mem
    .ok (adcCore cpu (mem ea), mem, decCyc c)
  | 0x61 => do -- ADC_INDX
    let (ea, cpu, c) ← indirectXAddressing cpu cycles mem
    .ok (adcCore cpu (mem ea), mem, decCyc c)
  | 0x71 => do -- ADC_INDY
    let (ea, cpu, c) ← indirectYAddressing cpu cycles mem
    .ok (adcCore cpu (mem ea), mem, decCyc c)
  | 0xE9 => -- SBC_IM: bit-negated operand, then the ADC body
    let (b, cpu, c) := fetchByte cpu cycles mem
    .ok (adcCore cpu (255 ^^^ b), mem, c)
  | 0xE5 => -- SBC_ZP
    let (ea, cpu, c) := zeroPageAddressing cpu cycles mem
    .ok (adcCore cpu (255 ^^^ mem ea), mem, decCyc c)
  | 0xF5 => -- SBC_ZPX
    let (ea, cpu, c) := zeroPageXAddressing cpu cycles mem
    .ok (adcCore cpu (255 ^^^ mem ea), mem, decCyc c)
  | 0xED => -- SBC_ABS
    let (ea, cpu, c) := absoluteAddressing cpu cycles mem
    .ok (adcCore cpu (255 ^^^ mem ea), mem, decCyc c)
  | 0xFD => -- SBC_ABSX
    let (ea, cpu, c) := absoluteXAddressing cpu cycles mem
    .ok (adcCore cpu (255 ^^^ mem ea), mem, decCyc c)
  | 0xF9 => -- SBC_ABSY
    let (ea, cpu, c) := absoluteYAddressing cpu cycles mem
    .ok (adcCore cpu (255 ^^^ mem ea), mem, decCyc c)
  | 0xE1 => do -- SBC_INDX
    let (ea, cpu, c) ← indirectXAddressing cpu cycles mem
    .ok (adcCore cpu (255 ^^^ mem ea), mem, decCyc c)
  | 0xF1 => do -- SBC_INDY
    let (ea, cpu, c) ← indirectYAddressing cpu cycles mem
    .ok (adcCore cpu (255 ^^^ mem ea), mem, decCyc c)
  | 0xC9 => -- CMP_IM
    let (b, cpu, c) := fetchByte cpu cycles mem
    .ok ({ cpu with p := compareIfFlags cpu.p cpu.a b }, mem, c)
  | 0xC5 => do -- CMP_ZP
    let (ea, cpu, c) := zeroPageAddressing cpu cycles mem
    let (b, c) ← readMemory c mem ea
    .ok ({ cpu with p := compareIfFlags cpu.p cpu.a b }, mem, c)
  | 0xD5 => do -- CMP_ZPX (the source uses plain zero-page addressing here)
    let (ea, cpu, c) := zeroPageAddressing cpu cycles mem
    let (b, c) ← readMemory c mem ea
    .ok ({ cpu with p := compareIfFlags cpu.p cpu.a b }, mem, c)
  | 0xCD => do -- CMP_ABS
    let (ea, cpu, c) := absoluteAddressing cpu cycles mem
    let (b, c) ← readMemory c mem ea
    .ok ({ cpu with p := compareIfFlags cpu.p cpu.a b }, mem, c)
  | 0xDD => do -- CMP_ABSX
    let (ea, cpu, c) := absoluteXAddressing cpu cycles mem
    let (b, c) ← readMemory c mem ea
    .ok ({ cpu with p := compareIfFlags cpu.p cpu.a b }, mem, c)
  | 0xD9 => do -- CMP_ABSY
    let (ea, cpu, c) := absoluteYAddressing cpu cycles mem
    let (b, c) ← readMemory c mem ea
    .ok ({ cpu with p := compareIfFlags cpu.p cpu.a b }, mem, c)
  | 0xC1 => do -- CMP_INDX
    let (ea, cpu, c) ← indirectXAddressing cpu cycles mem
    let (b, c) ← readMemory c mem ea
    .ok ({ cpu with p := compareIfFlags cpu.p cpu.a b }, mem, c)
  | 0xD1 => do -- CMP_INDY
    let (ea, cpu, c) ← indirectYAddressing cpu cycles mem
    let (b, c) ← readMemory c mem ea
    .ok ({ cpu with p := compareIfFlags cpu.p cpu.a b }, mem, c)
  | 0xE0 => -- CPX_IM
    let (b, cpu, c) := fetchByte cpu cycles mem
    .ok ({ cpu with p := compareIfFlags cpu.p cpu.x b }, mem, c)
  | 0xE4 => do -- CPX_ZP
    let (ea, cpu, c) := zeroPageAddressing cpu cycles mem
    let (b, c) ← readMemory c mem ea
    .ok ({ cpu with p := compareIfFlags cpu.p cpu.x b }, mem, c)
  | 0xEC => do -- CPX_ABS
    let (ea, cpu, c) := absoluteAddressing cpu cycles mem
    let (b, c) ← readMemory c mem ea
    .ok ({ cpu with p := compareIfFlags cpu.p cpu.x b }, mem, c)
  | 0xC0 => -- CPY_IM
    let (b, cpu, c) := fetchByte cpu cycles mem
    .ok ({ cpu with p := compareAssignFlags cpu.p cpu.y b }, mem, c)
  | 0xC4 => do -- CPY_ZP
    let (ea, cpu, c) := zeroPageAddressing cpu cycles mem
    let (b, c) ← readMemory c mem ea
    .ok ({ cpu with p := compareAssignFlags cpu.p cpu.y b }, mem, c)
  | 0xCC => do -- CPY_ABS
    let (ea, cpu, c) := absoluteAddressing cpu cycles mem
    let (b, c) ← readMemory c mem ea
    .ok ({ cpu with p := compareAssignFlags cpu.p cpu.y b }, mem, c)
  | 0xE6 => -- INC_ZP
    let (ea, cpu, c) := zeroPageAddressing cpu cycles mem
    let data := m8 (mem ea + 1)
    let c := decCyc (decCyc c)
    let mem := memWrite mem ea data
    let c := decCyc c
    let p := flagSet (flagSet cpu.p 2 (data == 0)) 128 (data &&& 128 == 128)
    .ok ({ cpu with p := p }, mem, c)
  | 0xF6 => -- INC_ZPX
    let (ea, cpu, c) := zeroPageXAddressing cpu cycles mem
    let data := m8 (mem ea + 1)
    let c := decCyc (decCyc c)
    let mem := memWrite mem ea data
    let c := decCyc c
    let p := flagSet (flagSet cpu.p 2 (data == 0)) 128 (data &&& 128 == 128)
    .ok ({ cpu with p := p }, mem, c)
  | 0xEE => -- INC_ABS
    let (ea, cpu, c) := absoluteAddressing cpu cycles mem
    let data := m8 (mem ea + 1)
    let c := decCyc (decCyc c)
    let mem := memWrite mem ea data
    let c := decCyc c
    let p := flagSet (flagSet cpu.p 2 (data == 0)) 128 (data &&& 128 == 128)
    .ok ({ cpu with p := p }, mem, c)
  | 0xFE => -- INC_ABSX (inline fetch_word + X, one discarded cycle)
    let (addr, cpu, c) := fetchWord cpu cycles mem
    let ea := m16 (cpu.x + addr)
    let data := m8 (mem ea + 1)
    let c := decCyc (decCyc (decCyc c))
    let mem := memWrite mem ea data
    let c := decCyc c
    let p := flagSet (flagSet cpu.p 2 (data == 0)) 128 (data &&& 128 == 128)
    .ok ({ cpu with p := p }, mem, c)
  | 0xE8 => -- INX
    let cpu := { cpu with x := m8 (cpu.x + 1) }
    .ok (setLdxFlags cpu, mem, decCyc cycles)
  | 0xC8 => -- INY
    let cpu := { cpu with y := m8 (cpu.y + 1) }
    .ok (setLdyFlags cpu, mem, decCyc cycles)
  | 0xC6 => -- DEC_ZP
    let (ea, cpu, c) := zeroPageAddressing cpu cycles mem
    let data := m8 (mem ea + 255)
    let c := decCyc (decCyc c)
    let mem := memWrite mem ea data
    let c := decCyc c
    let p := flagSet (flagSet cpu.p 2 (data == 0)) 128 (data &&& 128 == 128)
    .ok ({ cpu with p := p }, mem, c)
  | 0xD6 => -- DEC_ZPX
    let (ea, cpu, c) := zeroPageXAddressing cpu cycles mem
    let data := m8 (mem ea + 255)
    let c := decCyc (decCyc c)
    let mem := memWrite mem ea data
    let c := decCyc c
    let p := flagSet (flagSet cpu.p 2 (data == 0)) 128 (data &&& 128 == 128)
    .ok ({ cpu with p := p }, mem, c)
  | 0xCE => -- DEC_ABS
    let (ea, cpu, c) := absoluteAddressing cpu cycles mem
    let data := m8 (mem ea + 255)
    let c := decCyc (decCyc c)
    let mem := memWrite mem ea data
    let c := decCyc c
    let p := flagSet (flagSet cpu.p 2 (data == 0)) 128 (data &&& 128 == 128)
    .ok ({ cpu with p := p }, mem, c)
  | 0xDE => -- DEC_ABSX (inline fetch_word + X, one discarded cycle)
    let (addr, cpu, c) := fetchWord cpu cycles mem
    let ea := m16 (cpu.x + addr)
    let data := m8 (mem ea + 255)
    let c := decCyc (decCyc (decCyc c))
    let mem := memWrite mem ea data
    let c := decCyc c
    let p := flagSet (flagSet cpu.p 2 (data == 0)) 128 (data &&& 128 == 128)
    .ok ({ cpu with p := p }, mem, c)
  | 0xCA => -- DEX (no cycle debit in the source)
    let cpu := { cpu with x := m8 (cpu.x + 255) }
    .ok (setLdxFlags cpu, mem, cycles)
  | 0x88 => -- DEY (no cycle debit in the source)
    let cpu := { cpu with y := m8 (cpu.y + 255) }
    .ok (setLdyFlags cpu, mem, cycles)
  | 0x0A => -- ASL_A
    let oldA := cpu.a
    let cpu := { cpu with a := m8 (cpu.a <<< 1) }
    .ok ({ cpu with p := shiftFlags cpu.p (oldA &&& 128 == 128) cpu.a }, mem, decCyc cycles)
  | 0x06 => do -- ASL_ZP
    let (ea, cpu, c) := zeroPageAddressing cpu cycles mem
    let (oldByte, c) ← readMemory c mem ea
    let newByte := m8 (oldByte <<< 1)
    let c := decCyc c
    let mem := memWrite mem ea newByte
    let c := decCyc c
    .ok ({ cpu with p := shiftFlags cpu.p (oldByte &&& 128 == 128) newByte }, mem, c)
  | 0x16 => do -- ASL_ZPX
    let (ea, cpu, c) := zeroPageXAddressing cpu cycles mem
    let (oldByte, c) ← readMemory c mem ea
    let newByte := m8 (oldByte <<< 1)
    let c := decCyc c
    let mem := memWrite mem ea newByte
    let c := decCyc c
    .ok ({ cpu with p := shiftFlags cpu.p (oldByte &&& 128 == 128) newByte }, mem, c)
  | 0x0E => do -- ASL_ABS
    let (ea, cpu, c) := absoluteAddressing cpu cycles mem
    let (oldByte, c) ← readMemory c mem ea
    let newByte := m8 (oldByte <<< 1)
    let c := decCyc c
    let mem := memWrite mem ea newByte
    let c := decCyc c
    .ok ({ cpu with p := shiftFlags cpu.p (oldByte &&& 128 == 128) newByte }, mem, c)
  | 0x1E => do -- ASL_ABSX (inline fetch_word + X, one discarded cycle)
    let (addr, cpu, c) := fetchWord cpu cycles mem
    let ea := m16 (cpu.x + addr)
    let (oldByte, c) ← readMemory c mem ea
    let newByte := m8 (oldByte <<< 1)
    let c := decCyc (decCyc c)
    let mem := memWrite mem ea newByte
    let c := decCyc c
    .ok ({ cpu with p := shiftFlags cpu.p (oldByte &&& 128 == 128) newByte }, mem, c)
  | 0x4A => -- LSR_A (carry from bit 0 in the accumulator form)
    let oldA := cpu.a
    let cpu := { cpu with a := cpu.a >>> 1 }
    .ok ({ cpu with p := shiftFlags cpu.p (oldA &&& 1 == 1) cpu.a }, mem, decCyc cycles)
  | 0x46 => do -- LSR_ZP (the source takes carry from bit 7 in the memory forms)
    let (ea, cpu, c) := zeroPageAddressing cpu cycles mem
    let (oldByte, c) ← readMemory c mem ea
    let newByte := oldByte >>> 1
    let c := decCyc c
    let mem := memWrite mem ea newByte
    let c := decCyc c
    .ok ({ cpu with p := shiftFlags cpu.p (oldByte &&& 128 == 128) newByte }, mem, c)
  | 0x56 => do -- LSR_ZPX
    let (ea, cpu, c) := zeroPageXAddressing cpu cycles mem
    let (oldByte, c) ← readMemory c mem ea
    let newByte := oldByte >>> 1
    let c := decCyc c
    let mem := memWrite mem ea newByte
    let c := decCyc c
    .ok ({ cpu with p := shiftFlags cpu.p (oldByte &&& 128 == 128) newByte }, mem, c)
  | 0x4E => do -- LSR_ABS
    let (ea, cpu, c) := absoluteAddressing cpu cycles mem
    let (oldByte, c) ← readMemory c mem ea
    let newByte := oldByte >>> 1
    let c := decCyc c
    let mem := memWrite mem ea newByte
    let c := decCyc c
    .ok ({ cpu with p := shiftFlags cpu.p (oldByte &&& 128 == 128) newByte }, mem, c)
  | 0x5E => do -- LSR_ABSX (inline fetch_word + X, one discarded cycle)
    let (addr, cpu, c) := fetchWord cpu cycles mem
    let ea := m16 (cpu.x + addr)
    let (oldByte, c) ← readMemory c mem ea
    let newByte := oldByte >>> 1
    let c := decCyc (decCyc c)
    let mem := memWrite mem ea newByte
    let c := decCyc c
    .ok ({ cpu with p := shiftFlags cpu.p (oldByte &&& 128 == 128) newByte }, mem, c)
  | 0x2A => -- ROL_A
    let oldA := cpu.a
    let cpu := { cpu with a := m8 (cpu.a <<< 1) ||| (cpu.p &&& 1) }
    .ok ({ cpu with p := shiftFlags cpu.p (oldA &&& 128 == 128) cpu.a }, mem, decCyc cycles)
  | 0x26 => do -- ROL_ZP
    let (ea, cpu, c) := zeroPageAddressing cpu cycles mem
    let (oldByte, c) ← readMemory c mem ea
    let newByte := m8 (oldByte <<< 1) ||| (cpu.p &&& 1)
    let c := decCyc c
    let mem := memWrite mem ea newByte
    let c := decCyc c
    .ok ({ cpu with p := shiftFlags cpu.p (oldByte &&& 128 == 128) newByte }, mem, c)
  | 0x36 => do -- ROL_ZPX
    let (ea, cpu, c) := zeroPageXAddressing cpu cycles mem
    let (oldByte, c) ← readMemory c mem ea
    let newByte := m8 (oldByte <<< 1) ||| (cpu.p &&& 1)
    let c := decCyc c
    let mem := memWrite mem ea newByte
    let c := decCyc c
    .ok ({ cpu with p := shiftFlags cpu.p (oldByte &&& 128 == 128) newByte }, mem, c)
  | 0x2E => do -- ROL_ABS
    let (ea, cpu, c) := absoluteAddressing cpu cycles mem
    let (oldByte, c) ← readMemory c mem ea
    let newByte := m8 (oldByte <<< 1) ||| (cpu.p &&& 1)
    let c := decCyc c
    let mem := memWrite mem ea newByte
    let c := decCyc c
    .ok ({ cpu with p := shiftFlags cpu.p (oldByte &&& 128 == 128) newByte }, mem, c)
  | 0x3E => do -- ROL_ABSX (inline fetch_word + X, one discarded cycle)
    let (addr, cpu, c) := fetchWord cpu cycles mem
    let ea := m16 (cpu.x + addr)
    let (oldByte, c) ← readMemory c mem ea
    let newByte := m8 (oldByte <<< 1) ||| (cpu.p &&& 1)
    let c := decCyc (decCyc c)
    let mem := memWrite mem ea newByte
    let c := decCyc c
    .ok ({ cpu with p := shiftFlags cpu.p (oldByte &&& 128 == 128) newByte }, mem, c)
  | 0x6A => -- ROR_A (carry from bit 0 in the accumulator form)
    let oldA := cpu.a
    let a := cpu.a >>> 1
    let a := if carryFlag cpu.p then a ||| 128 else a &&& 127
    let cpu := { cpu with a := a }
    .ok ({ cpu with p := shiftFlags cpu.p (oldA &&& 1 == 1) a }, mem, decCyc cycles)
  | 0x66 => do -- ROR_ZP (the source takes carry from bit 7 in the memory forms)
    let (ea, cpu, c) := zeroPageAddressing cpu cycles mem
    let (oldByte, c) ← readMemory c mem ea
    let newByte := oldByte >>> 1
    let newByte := if carryFlag cpu.p then newByte ||| 128 else newByte &&& 127
    let c := decCyc c
    let mem := memWrite mem ea newByte
    let c := decCyc c
    .ok ({ cpu with p := shiftFlags cpu.p (oldByte &&& 128 == 128) newByte }, mem, c)
  | 0x76 => do -- ROR_ZPX
    let (ea, cpu, c) := zeroPageXAddressing cpu cycles mem
    let (oldByte, c) ← readMemory c mem ea
    let newByte := oldByte >>> 1
    let newByte := if carryFlag cpu.p then newByte ||| 128 else newByte &&& 127
    let c := decCyc c
    let mem := memWrite mem ea newByte
    let c := decCyc c
    .ok ({ cpu with p := shiftFlags cpu.p (oldByte &&& 128 == 128) newByte }, mem, c)
  | 0x6E => do -- ROR_ABS
    let (ea, cpu, c) := absoluteAddressing cpu cycles mem
    let (oldByte, c) ← readMemory c mem ea
    let newByte := oldByte >>> 1
    let newByte := if carryFlag cpu.p then newByte ||| 128 else newByte &&& 127
    let c := decCyc c
    let mem := memWrite mem ea newByte
    let c := decCyc c
    .ok ({ cpu with p := shiftFlags cpu.p (oldByte &&& 128 == 128) newByte }, mem, c)
  | 0x7E => do -- ROR_ABSX (inline fetch_word + X, one discarded cycle)
    let (addr, cpu, c) := fetchWord cpu cycles mem
    let ea := m16 (cpu.x + addr)
    let (oldByte, c) ← readMemory c mem ea
    let newByte := oldByte >>> 1
    let newByte := if carryFlag cpu.p then newByte ||| 128 else newByte &&& 127
    let c := decCyc (decCyc c)
    let mem := memWrite mem ea newByte
    let c := decCyc c
    .ok ({ cpu with p := shiftFlags cpu.p (oldByte &&& 128 == 128) newByte }, mem, c)
  | 0x4C => -- JMP_ABS
    let (ea, cpu, c) := absoluteAddressing cpu cycles mem
    .ok ({ cpu with pc := ea }, mem, c)
  | 0x6C => do -- JMP_IND
    let (ea, cpu, c) ← indirectAddressing cpu cycles mem
    .ok ({ cpu with pc := ea }, mem, c)
  | 0x20 => -- JSR: pushes go to address SP itself (no $0100 base)
    let (low, cpu, c) := fetchByte cpu cycles mem
    let c := decCyc c
    let mem := memWrite mem cpu.sp (cpu.pc >>> 8)
    let cpu := { cpu with sp := m8 (cpu.sp + 255) }
    let c := decCyc c
    let mem := memWrite mem cpu.sp (m8 cpu.pc)
    let cpu := { cpu with sp := m8 (cpu.sp + 255) }
    let c := decCyc c
    let (high, cpu, c) := fetchByte cpu c mem
    .ok ({ cpu with pc := (high <<< 8) ||| low }, mem, c)
  | 0x60 => -- RTS
    let c := decCyc (decCyc cycles)
    let cpu := { cpu with sp := m8 (cpu.sp + 1) }
    let low := mem cpu.sp
    let c := decCyc c
    let cpu := { cpu with sp := m8 (cpu.sp + 1) }
    let high := mem cpu.sp
    let c := decCyc (decCyc c)
    .ok ({ cpu with pc := m16 (((high <<< 8) ||| low) + 1) }, mem, c)
  | 0x90 => -- BCC
    let (cpu, c) := branchOp cpu cycles mem (!carryFlag cpu.p)
    .ok (cpu, mem, c)
  | 0xB0 => -- BCS
    let (cpu, c) := branchOp cpu cycles mem (carryFlag cpu.p)
    .ok (cpu, mem, c)
  | 0xF0 => -- BEQ
    let (cpu, c) := branchOp cpu cycles mem (zeroFlag cpu.p)
    .ok (cpu, mem, c)
  | 0x30 => -- BMI
    let (cpu, c) := branchOp cpu cycles mem (negativeFlag cpu.p)
    .ok (cpu, mem, c)
  | 0xD0 => -- BNE
    let (cpu, c) := branchOp cpu cycles mem (!zeroFlag cpu.p)
    .ok (cpu, mem, c)
  | 0x10 => -- BPL
    let (cpu, c) := branchOp cpu cycles mem (!negativeFlag cpu.p)
    .ok (cpu, mem, c)
  | 0x50 => -- BVC
    let (cpu, c) := branchOp cpu cycles mem (!overflowFlag cpu.p)
    .ok (cpu, mem, c)
  | 0x70 => -- BVS (cycle debited before the flag test, none when taken)
    let (cpu, c) := bvsOp cpu cycles mem
    .ok (cpu, mem, c)
  | 0x18 => -- CLC
    .ok ({ cpu with p := flagSet cpu.p 1 false }, mem, decCyc cycles)
  | 0xD8 => -- CLD
    .ok ({ cpu with p := flagSet cpu.p 8 false }, mem, decCyc cycles)
  | 0x58 => -- CLI
    .ok ({ cpu with p := flagSet cpu.p 4 false }, mem, decCyc cycles)
  | 0xB8 => -- CLV
    .ok ({ cpu with p := flagSet cpu.p 64 false }, mem, decCyc cycles)
  | 0x38 => -- SEC
    .ok ({ cpu with p := flagSet cpu.p 1 true }, mem, decCyc cycles)
  | 0xF8 => -- SED
    .ok ({ cpu with p := flagSet cpu.p 8 true }, mem, decCyc cycles)
  | 0x78 => -- SEI
    .ok ({ cpu with p := flagSet cpu.p 4 true }, mem, decCyc cycles)
  | 0x00 => -- BRK: pushes at address SP itself; B set after the vector load
    let c := decCyc cycles
    let mem := memWrite mem cpu.sp (cpu.pc >>> 8)
    let cpu := { cpu with sp := m8 (cpu.sp + 255) }
    let c := decCyc c
    let mem := memWrite mem cpu.sp (m8 cpu.pc)
    let cpu := { cpu with sp := m8 (cpu.sp + 255) }
    let c := decCyc c
    let mem := memWrite mem cpu.sp cpu.p
    let cpu := { cpu with sp := m8 (cpu.sp + 255) }
    let c := decCyc c
    let low := mem 0xFFFE
    let c := decCyc c
    let high := mem 0xFFFF
    let c := decCyc c
    let cpu := { cpu with pc := (high <<< 8) ||| low }
    .ok ({ cpu with p := flagSet cpu.p 16 true }, mem, c)
  | 0xEA => -- NOP (no cycle debit in the source)
    .ok (cpu, mem, cycles)
  | 0x40 => -- RTI: pulls P through the bit-5-masking From conversion
    let c := decCyc (decCyc cycles)
    let cpu := { cpu with sp := m8 (cpu.sp + 1) }
    let cpu := { cpu with p := statusFromU8 (mem cpu.sp) }
    let c := decCyc c
    let cpu := { cpu with sp := m8 (cpu.sp + 1) }
    let low := mem cpu.sp
    let c := decCyc c
    let cpu := { cpu with sp := m8 (cpu.sp + 1) }
    let high := mem cpu.sp
    let c := decCyc c
    .ok ({ cpu with pc := (high <<< 8) ||| low }, mem, c)
  | _ => .error .unknownOpcodePanic

/-- One iteration of the `while cycles > 0` body of `CPU::execute`: fetch the
opcode (one cycle) and dispatch. -/
def step (cpu : CPU) (mem : Mem) (cycles : Nat) : Except EmuErr (CPU × Mem × Nat) :=
  let (inst, cpu', cycles') := fetchByte cpu cycles mem
  execInst inst cpu' mem cycles'

/-- The `execute` loop (`while cycles > 0`), with explicit fuel bounding the
number of executed instructions: `none` means the fuel ran out with budget
still positive. -/
def execLoop : Nat → CPU → Mem → Nat → Option (Except EmuErr (CPU × Mem))
  | 0, cpu, mem, cycles => if cycles = 0 then some (.ok (cpu, mem)) else none
  | fuel + 1, cpu, mem, cycles =>
    if cycles = 0 then some (.ok (cpu, mem))
    else
      match step cpu mem cycles with
      | .error e => some (.error e)
      | .ok (cpu', mem', cycles') => execLoop fuel cpu' mem' cycles'

/-- CPU of a successful step. -/
def outCPU : Except EmuErr (CPU × Mem × Nat) → Option CPU
  | .ok (c, _, _) => some c
  | .error _ => none

/-- One memory cell of a successful step. -/
def outMem (r : Except EmuErr (CPU × Mem × Nat)) (i : Nat) : Option Nat :=
  match r with
  | .ok (_, m, _) => some (m i)
  | .error _ => none

/-- Remaining cycle budget of a successful step. -/
def outCyc : Except EmuErr (CPU × Mem × Nat) → Option Nat
  | .ok (_, _, c) => some c
  | .error _ => none

/-- The fatal error of a failed step. -/
def outErr : Except EmuErr (CPU × Mem × Nat) → Option EmuErr
  | .ok _ => none
  | .error e => some e

/-- The 151 opcode bytes dispatched by `CPU::execute` (the constants of
`consts.rs`, completed by the spec's canonical values for the branch, flag-op,
BRK, NOP and RTI bytes that `consts.rs` omits). -/
def opcodeList : List Nat :=
  [0xA9, 0xA5, 0xB5, 0xAD, 0xBD, 0xB9, 0xA1, 0xB1,            -- LDA
   0xA2, 0xA6, 0xB6, 0xAE, 0xBE,                              -- LDX
   0xA0, 0xA4, 0xB4, 0xAC, 0xBC,                              -- LDY
   0x85, 0x95, 0x8D, 0x9D, 0x99, 0x81, 0x91,                  -- STA
   0x86, 0x96, 0x8E,                                          -- STX
   0x84, 0x94, 0x8C,                                          -- STY
   0xAA, 0xA8, 0x8A, 0x98, 0xBA, 0x9A,                        -- transfers
   0x48, 0x08, 0x68, 0x28,                                    -- PHA PHP PLA PLP
   0x29, 0x25, 0x35, 0x2D, 0x3D, 0x39, 0x21, 0x31,            -- AND
   0x49, 0x45, 0x55, 0x4D, 0x5D, 0x59, 0x41, 0x51,            -- EOR
   0x09, 0x05, 0x15, 0x0D, 0x1D, 0x19, 0x01, 0x11,            -- ORA
   0x24, 0x2C,                                                -- BIT
   0x69, 0x65, 0x75, 0x6D, 0x7D, 0x79, 0x61, 0x71,            -- ADC
   0xE9, 0xE5, 0xF5, 0xED, 0xFD, 0xF9, 0xE1, 0xF1,            -- SBC
   0xC9, 0xC5, 0xD5, 0xCD, 0xDD, 0xD9, 0xC1, 0xD1,            -- CMP
   0xE0, 0xE4, 0xEC,                                          -- CPX
   0xC0, 0xC4, 0xCC,                                          -- CPY
   0xE6, 0xF6, 0xEE, 0xFE, 0xE8, 0xC8,                        -- INC INX INY
   0xC6, 0xD6, 0xCE, 0xDE, 0xCA, 0x88,                        -- DEC DEX DEY
   0x0A, 0x06, 0x16, 0x0E, 0x1E,                              -- ASL
   0x4A, 0x46, 0x56, 0x4E, 0x5E,                              -- LSR
   0x2A, 0x26, 0x36, 0x2E, 0x3E,                              -- ROL
   0x6A, 0x66, 0x76, 0x6E, 0x7E,                              -- ROR
   0x4C, 0x6C, 0x20, 0x60,                                    -- JMP JSR RTS
   0x90, 0xB0, 0xF0, 0x30, 0xD0, 0x10, 0x50, 0x70,            -- branches
   0x18, 0xD8, 0x58, 0xB8, 0x38, 0xF8, 0x78,                  -- flag ops
   0x00, 0xEA, 0x40]                                          -- BRK NOP RTI

/-- Program for C1: `ADC #$50` at the reset position. -/
def memAdcA : Mem := fun i => if i = 0 then 0x69 else if i = 1 then 0x50 else 0

/-- Program for C1: `ADC #$90`. -/
def memAdcB : Mem := fun i => if i = 0 then 0x69 else if i = 1 then 0x90 else 0

/-- Program for C2: a single `PHA` at `$0200`. -/
def memPha : Mem := fun i => if i = 0x200 then 0x48 else 0

/-- Program for C3: `JMP ($FFFF)`. -/
def memJmpTop : Mem :=
  fun i => if i = 0 then 0x6C else if i = 1 then 0xFF else if i = 2 then 0xFF else 0

/-- Program for C4: `CMP #$02`. -/
def memCmpA : Mem := fun i => if i = 0 then 0xC9 else if i = 1 then 2 else 0

/-- Program for C4: `CMP #$03`. -/
def memCmpB : Mem := fun i => if i = 0 then 0xC9 else if i = 1 then 3 else 0

/-- Program for C5: a single `DEX`. -/
def memDex : Mem := fun i => if i = 0 then 0xCA else 0

/-- Program for C5: a single `DEY`. -/
def memDey : Mem := fun i => if i = 0 then 0x88 else 0

/-- Program for C5: a single `NOP`. -/
def memNop : Mem := fun i => if i = 0 then 0xEA else 0

/-- Program for C5: `BVS +5`. -/
def memBvs : Mem := fun i => if i = 0 then 0x70 else if i = 1 then 5 else 0

/-- Program for C5: `BCC +$20` placed at `$00F0`, so the taken branch crosses
into page `$01`. -/
def memBccCross : Mem := fun i => if i = 0xF0 then 0x90 else if i = 0xF1 then 0x20 else 0

/-- Program for C6: `JMP ($02FF)` with distinct marker bytes at `$02FF`,
`$0300` and `$0200`. -/
def memJmpQuirk : Mem :=
  fun i => if i = 0 then 0x6C else if i = 1 then 0xFF else if i = 2 then 0x02
    else if i = 0x2FF then 0x34 else if i = 0x300 then 0x12
    else if i = 0x200 then 0x56 else 0

/-- Program for C7: `PLP` with the byte `$20` (bit 5) at the pull location. -/
def memPlp : Mem := fun i => if i = 0 then 0x28 else if i = 0xFF then 0x20 else 0

/-- Program for C7: `RTI` with status byte `$20` and return address
`$1234` at the pull locations. -/
def memRti : Mem :=
  fun i => if i = 0 then 0x40 else if i = 0xFD then 0x20
    else if i = 0xFE then 0x34 else if i = 0xFF then 0x12 else 0

/-- Program for C8: the undocumented byte `$02` at `$0000`. -/
def memInv2 : Mem := fun i => if i = 0 then 0x02 else 0

/-- Program for C8: the undocumented byte `$03` at `$0005`. -/
def memInv3 : Mem := fun i => if i = 5 then 0x03 else 0

/-- Program for C9: `STY $40`. -/
def memSty : Mem := fun i => if i = 0 then 0x84 else if i = 1 then 0x40 else 0

/-- Program for C10's witness: `PHA` then `PLA` at `$0080`. -/
def memRoundTrip : Mem := fun i => if i = 0x80 then 0x48 else if i = 0x81 then 0x68 else 0

/-- Symbolic evaluation of one PHA step: push A at address SP, decrement SP
with u8 wrap, three cycles in all. -/
theorem step_pha (cpu : CPU) (mem : Mem) (cy : Nat) (h : mem cpu.pc = 0x48) :
    step cpu mem cy =
      .ok ({ cpu with pc := m16 (cpu.pc + 1), sp := m8 (cpu.sp + 255) },
        memWrite mem cpu.sp cpu.a, decCyc (decCyc (decCyc cy))) := by
  simp only [step, fetchByte, h]
  rfl

/-- Symbolic evaluation of one PLA step: increment SP with u8 wrap, load A
from address SP, set Z/N, four cycles in all. -/
theorem step_pla (cpu : CPU) (mem : Mem) (cy : Nat) (h : mem cpu.pc = 0x68) :
    step cpu mem cy =
      .ok (setLdaFlags { cpu with pc := m16 (cpu.pc + 1), sp := m8 (cpu.sp + 1), a := mem (m8 (cpu.sp + 1)) },
        mem, decCyc (decCyc (decCyc (decCyc cy)))) := by
  simp only [step, fetchByte, h]
  rfl

/-- Unrolling the executor loop by one instruction. -/
theorem execLoop_cons (fuel : Nat) (cpu cpu' : CPU) (mem mem' : Mem)
    (cycles cycles' : Nat) (hc : cycles ≠ 0)
    (hs : step cpu mem cycles = .ok (cpu', mem', cycles')) :
    execLoop (fuel + 1) cpu mem cycles = execLoop fuel cpu' mem' cycles' := by
  simp only [execLoop]
  rw [if_neg hc, hs]

/-- The loop halts cleanly on a zero budget. -/
theorem execLoop_zero_budget (fuel : Nat) (cpu : CPU) (mem : Mem) :
    execLoop fuel cpu mem 0 = some (.ok (cpu, mem)) := by
  cases fuel <;> simp [execLoop]

/-- The zero flag after the Z/N update pair reads back the zero condition. -/
theorem zeroFlag_setZN (bz bn : Bool) : ∀ p < 256,
    zeroFlag (flagSet (flagSet p 2 bz) 128 bn) = bz := by
  cases bz <;> cases bn <;> decide

/-- The negative flag after the Z/N update pair reads back the bit-7
condition. -/
theorem negativeFlag_setZN (bz bn : Bool) : ∀ p < 256,
    negativeFlag (flagSet (flagSet p 2 bz) 128 bn) = bn := by
  cases bz <;> cases bn <;> decide

/-- Decrement then increment of the stack pointer is the identity on bytes. -/
theorem spWrap (sp : Nat) (h : sp < 256) : m8 (m8 (sp + 255) + 1) = sp := by
  simp only [m8]
  omega

/-- C1: the claim's ADC flag law fails on the code.  At `A = $50`, `M = $50`,
`C_in = 0` the claimed rule gives `N = 1` (the result `$A0` has bit 7 set),
but the executed `ADC #$50` leaves `P = $40`, whose N bit is clear, because
`set_adc_sbc_flags` compares `a & 0b10000000` against the literal `0b1000000`
(64).  At `A = $70`, `M = $90`, `C_in = 0` the claimed rule
`V = ((A ^ r) & (M ^ r) & $80) ≠ 0` gives `V = 0` (the result is `$00`), but
the executed `ADC #$90` leaves `P = $43`, whose V bit is set, because the
source compares only the operand's sign with the result's sign.  The sum,
carry and zero parts of the claim do hold at these inputs. -/
theorem C1_adc_flag_bug_eval :
    (outCPU (step ⟨0, 0, 0x50, 0, 0, 0⟩ memAdcA 4) = some ⟨2, 0, 0xA0, 0, 0, 0x40⟩ ∧
      negativeFlag 0x40 = false ∧ 0xA0 &&& 0x80 = 0x80) ∧
    (outCPU (step ⟨0, 0, 0x70, 0, 0, 0⟩ memAdcB 4) = some ⟨2, 0, 0x00, 0, 0, 0x43⟩ ∧
      overflowFlag 0x43 = true ∧ (0x70 ^^^ 0x00) &&& ((0x90 ^^^ 0x00) &&& 0x80) = 0) := by
  decide

/-- C2: the stack is not at `$0100 | SP`.  Executing `PHA` from `SP = $FF`,
`A = $42` writes `$42` to address `$00FF` in the zero page and leaves `$01FF`
(the address the claim requires) untouched; SP is decremented to `$FE`. -/
theorem C2_push_hits_zero_page_eval :
    outMem (step ⟨0x200, 0xFF, 0x42, 0, 0, 0⟩ memPha 5) 0xFF = some 0x42 ∧
    outMem (step ⟨0x200, 0xFF, 0x42, 0, 0, 0⟩ memPha 5) 0x1FF = some 0 ∧
    outCPU (step ⟨0x200, 0xFF, 0x42, 0, 0, 0⟩ memPha 5) = some ⟨0x201, 0xFE, 0x42, 0, 0, 0⟩ := by
  decide

/-- C3: address arithmetic is not everywhere reduced mod 65536: the pointer
fetch of `JMP ($FFFF)` reads its high byte at the unreduced index
`$FFFF + 1 = 65536`, out of bounds of the 64 KiB array in every build
profile, so this instruction fails instead of wrapping. -/
theorem C3_jmp_top_pointer_fails_eval :
    outErr (step ⟨0, 0, 0, 0, 0, 0⟩ memJmpTop 6) = some .outOfBounds := by
  decide

/-- C4: CMP's Z and N updates are set-only, so stale values survive.  With
`Z` and `N` both set beforehand (`P = $82`), `CMP #$02` with `A = $01` leaves
`P = $82`: Z stays 1 although `A ≠ M`.  With `N` set beforehand (`P = $80`),
`CMP #$03` with `A = $05` leaves `P = $81`: N stays 1 although bit 7 of
`(A - M) mod 256 = $02` is clear.  (Carry is assigned in both cases.) -/
theorem C4_cmp_stale_flags_eval :
    outCPU (step ⟨0, 0, 0x01, 0, 0, 0x82⟩ memCmpA 4) = some ⟨2, 0, 0x01, 0, 0, 0x82⟩ ∧
    outCPU (step ⟨0, 0, 0x05, 0, 0, 0x80⟩ memCmpB 4) = some ⟨2, 0, 0x05, 0, 0, 0x81⟩ := by
  decide

/-- C5: cycle counts diverge from the claim.  From a budget of 10:
`DEX`, `DEY` and `NOP` leave 9 (one cycle consumed; the claim says 2);
`BVS` not taken leaves 7 (3 consumed; the claim says 2);
`BCC` taken across a page boundary (from `$00F2` to `$0112`) leaves 5
(5 consumed; the claim says 4).  `BCC` not taken leaves 8 (2 consumed,
agreeing with the claim). -/
theorem C5_cycle_bugs_eval :
    outCyc (step ⟨0, 0, 0, 7, 0, 0⟩ memDex 10) = some 9 ∧
    outCyc (step ⟨0, 0, 0, 0, 7, 0⟩ memDey 10) = some 9 ∧
    outCyc (step ⟨0, 0, 0, 0, 0, 0⟩ memNop 10) = some 9 ∧
    outCyc (step ⟨0, 0, 0, 0, 0, 0⟩ memBvs 10) = some 7 ∧
    outCyc (step ⟨0xF0, 0, 0, 0, 0, 0⟩ memBccCross 10) = some 5 ∧
    outCPU (step ⟨0xF0, 0, 0, 0, 0, 0⟩ memBccCross 10) = some ⟨0x112, 0, 0, 0, 0, 0⟩ ∧
    outCyc (step ⟨0xF0, 0, 0, 0, 0, 1⟩ memBccCross 10) = some 8 := by
  decide

/-- C6: there is no page-wrap quirk: `JMP ($02FF)` lands at `$1234`, taking
its high byte from `$0300` (which holds `$12`), not from `$0200` (which
holds `$56`) as the claim requires — the claimed target would be `$5634`. -/
theorem C6_jmp_indirect_no_quirk_eval :
    outCPU (step ⟨0, 0, 0, 0, 0, 0⟩ memJmpQuirk 6) = some ⟨0x1234, 0, 0, 0, 0, 0⟩ := by
  decide

/-- C7: pulling a status byte with bit 5 set is fatal in PLP, whose arm calls
`Status::from_bits(..).unwrap()`: the byte `$20` panics.  RTI by contrast
goes through the masking `From` conversion and succeeds on the same byte,
adopting `$00` (bit 5 masked away). -/
theorem C7_plp_unwrap_panics_eval :
    outErr (step ⟨0, 0xFE, 0, 0, 0, 0⟩ memPlp 4) = some .unwrapPanic ∧
    outCPU (step ⟨0, 0xFC, 0, 0, 0, 0xFF⟩ memRti 6) = some ⟨0x1234, 0xFF, 0, 0, 0, 0⟩ := by
  decide

/-- C8 counterexample: the fatal error carries neither the offending byte nor
the PC.  Executing the undocumented byte `$02` at PC `$0000` and the
undocumented byte `$03` at PC `$0005` produce the very same error value —
the payload-free catch-all panic — which would be impossible if the error
carried the byte and the PC as the claim states. -/
theorem C8_error_carries_no_payload :
    outErr (step ⟨0, 0, 0, 0, 0, 0⟩ memInv2 4) = outErr (step ⟨5, 0, 0, 0, 0, 0⟩ memInv3 4) ∧
    outErr (step ⟨0, 0, 0, 0, 0, 0⟩ memInv2 4) = some .unknownOpcodePanic := by
  decide

/-- C8 (amended): every opcode byte outside the dispatch table is fatal: the
executor fails with the catch-all panic, which carries no data. -/
theorem C8_invalid_opcode_fatal :
    ∀ b < 256, b ∉ opcodeList →
      outErr (step ⟨0, 0, 0, 0, 0, 0⟩ (fun _ => b) 4) = some .unknownOpcodePanic := by
  decide

/-- Witness for C8: the undocumented byte `$02` is outside the table and is
rejected with the payload-free panic. -/
theorem C8_invalid_opcode_fatal_witness :
    outErr (step ⟨0, 0, 0, 0, 0, 0⟩ (fun _ => (2 : Nat)) 4) = some .unknownOpcodePanic :=
  C8_invalid_opcode_fatal 2 (by decide) (by decide)

/-- C9: STY stores the X register: `STY $40` with `Y = $11`, `X = $22` writes
`$22` to `$0040`, where the claim requires `$11`; no flags or registers
change. -/
theorem C9_sty_stores_x_eval :
    outMem (step ⟨0, 0, 0, 0x22, 0x11, 0⟩ memSty 3) 0x40 = some 0x22 ∧
    outCPU (step ⟨0, 0, 0, 0x22, 0x11, 0⟩ memSty 3) = some ⟨2, 0, 0, 0x22, 0x11, 0⟩ := by
  decide

/-- C10: PHA immediately followed by PLA restores A and SP, with Z and N
afterwards reflecting A.  The hypotheses are the claim's side conditions:
byte-valued SP and P, the two opcodes in place, and the stack cell used by
the push (which the code places at address SP itself) distinct from the two
instruction bytes; the budget is the exact 7 cycles of the pair. -/
theorem C10_pha_pla_roundtrip (cpu : CPU) (mem : Mem)
    (hsp : cpu.sp < 256) (hp : cpu.p < 256)
    (hPHA : mem cpu.pc = 0x48)
    (hPLA : mem (m16 (cpu.pc + 1)) = 0x68)
    (hovl1 : cpu.sp ≠ cpu.pc)
    (hovl2 : cpu.sp ≠ m16 (cpu.pc + 1)) :
    ∃ cpu' mem', execLoop 2 cpu mem 7 = some (.ok (cpu', mem')) ∧
      cpu'.a = cpu.a ∧ cpu'.sp = cpu.sp ∧
      zeroFlag cpu'.p = (cpu.a == 0) ∧
      negativeFlag cpu'.p = (cpu.a &&& 128 == 128) := by
  have hfetch2 : memWrite mem cpu.sp cpu.a (m16 (cpu.pc + 1)) = 0x68 := by
    simp only [memWrite]
    rw [if_neg (fun hh => hovl2 hh.symm)]
    exact hPLA
  have hread : memWrite mem cpu.sp cpu.a cpu.sp = cpu.a := by
    simp [memWrite]
  have hsp' : m8 (m8 (cpu.sp + 255) + 1) = cpu.sp := spWrap cpu.sp hsp
  have h1 : execLoop 2 cpu mem 7 =
      execLoop 1 { cpu with pc := m16 (cpu.pc + 1), sp := m8 (cpu.sp + 255) }
        (memWrite mem cpu.sp cpu.a) 4 :=
    execLoop_cons 1 _ _ _ _ 7 4 (by decide)
      (by rw [step_pha cpu mem 7 hPHA]; norm_num [decCyc])
  have hstep2 : step { cpu with pc := m16 (cpu.pc + 1), sp := m8 (cpu.sp + 255) }
      (memWrite mem cpu.sp cpu.a) 4 =
      .ok (setLdaFlags { cpu with pc := m16 (m16 (cpu.pc + 1) + 1), sp := cpu.sp, a := cpu.a },
        memWrite mem cpu.sp cpu.a, 0) := by
    rw [step_pla _ _ 4 hfetch2]
    simp only [hsp', hread]
    norm_num [decCyc]
  have h2 : execLoop 1 { cpu with pc := m16 (cpu.pc + 1), sp := m8 (cpu.sp + 255) }
      (memWrite mem cpu.sp cpu.a) 4 =
      execLoop 0 (setLdaFlags { cpu with pc := m16 (m16 (cpu.pc + 1) + 1), sp := cpu.sp, a := cpu.a })
        (memWrite mem cpu.sp cpu.a) 0 :=
    execLoop_cons 0 _ _ _ _ 4 0 (by decide) hstep2
  refine ⟨setLdaFlags { cpu with pc := m16 (m16 (cpu.pc + 1) + 1), sp := cpu.sp, a := cpu.a },
    memWrite mem cpu.sp cpu.a, ?_, rfl, rfl, ?_, ?_⟩
  · rw [h1, h2, execLoop_zero_budget]
  · exact zeroFlag_setZN (cpu.a == 0) (cpu.a &&& 128 == 128) cpu.p hp
  · exact negativeFlag_setZN (cpu.a == 0) (cpu.a &&& 128 == 128) cpu.p hp

/-- Witness for C10: the round trip from `A = $AB`, `SP = $30`, program at
`$0080`, with the negative flag reported set afterwards. -/
theorem C10_pha_pla_roundtrip_witness :
    ∃ cpu' mem', execLoop 2 ⟨0x80, 0x30, 0xAB, 1, 2, 0⟩ memRoundTrip 7 = some (.ok (cpu', mem')) ∧
      cpu'.a = 0xAB ∧ cpu'.sp = 0x30 ∧
      zeroFlag cpu'.p = ((0xAB : Nat) == 0) ∧
      negativeFlag cpu'.p = ((0xAB : Nat) &&& 128 == 128) :=
  C10_pha_pla_roundtrip ⟨0x80, 0x30, 0xAB, 1, 2, 0⟩ memRoundTrip (by decide) (by decide)
    (by rfl) (by rfl) (by decide) (by decide)

end Emu6502
